import Mathlib

/-!
Verification development for the Code-Evaluator repository.

The repository contains two parallel implementations of the same grading
pipeline:
  * `Code-Evaluator-V2` (referred to as V2 below), and
  * `Code_Evaluator-Code-Evaluator-IITB` (referred to as IITB below).

This file gives a shallow embedding of the score-carrying core of both
implementations: the data model (`schema.py` of both trees), the
test-runner boundary (`test_runner.py`, `deterministic_engine.py`), the
deterministic rubric engine (`rubric_engine.py`, `deterministic_engine.py`),
the consensus merger (`consensus_agent.py`), the hallucination auditors
(`hallucination_auditor.py`, `consistency_checker.py`), the judge-response
clamping (`test_designer.py`, `llm_judge.py`) and the score blending
(`orchestrator.py` of both trees).

Modelling conventions:
  * Python floats are modelled as exact rationals; the builtin
    `round(x, n)` (banker rounding, half to even) is modelled exactly on
    rationals by `pyRound`.
  * Parsing of the sentinel-delimited JSON block out of the worker
    stdout, and of the Python source text into a syntax tree, are
    input/output boundaries; they are abstracted by the `Option JsonData`
    field of `RawSandboxResult` and by the `SourceModel` record of
    structural source features (the Source Model interface of the spec).
  * Human-readable description strings are kept only where a theorem
    needs to distinguish flags; rendering of numbers inside such strings
    (`ratStr`, `pctStr`) approximates the Python float formatting.
-/

namespace CodeEval

/-- Python `round(q, n)`: round to `n` decimal digits, ties to even,
modelled exactly on rationals. -/
def pyRound (n : ℕ) (q : ℚ) : ℚ :=
  let m : ℚ := (10 : ℚ) ^ n
  let s : ℚ := q * m
  let f : ℤ := ⌊s⌋
  let r : ℤ :=
    if 1/2 < s - (f : ℚ) then f + 1
    else if s - (f : ℚ) < 1/2 then f
    else if f % 2 = 0 then f else f + 1
  (r : ℚ) / m

/-- Python substring test `pat in s`, via `String.splitOn`. -/
def strContains (s pat : String) : Bool :=
  (s.splitOn pat).length != 1

/-- Rendering of a number inside a flag string (Python float repr,
approximated). -/
def ratStr (q : ℚ) : String := toString q

/-- Python `f"{q:.0%}"` (percentage with zero decimals), approximated. -/
def pctStr (q : ℚ) : String := ratStr (pyRound 0 (q * 100)) ++ "%"

/-- Rubric weights (`RubricScores.overall` of both schemas). -/
structure RubricWeights where
  correctness : ℚ
  edge_cases : ℚ
  complexity : ℚ
  style : ℚ
  clarity : ℚ
deriving DecidableEq

/-- The default weights (correctness 0.35, edge_cases 0.20, complexity,
style, clarity 0.15 each). -/
def defaultWeights : RubricWeights :=
  ⟨35/100, 20/100, 15/100, 15/100, 15/100⟩

/-- `TestResult` dataclass (identical in both schemas). -/
structure TestResult where
  test_name : String
  passed : Bool
  message : String := ""
  execution_time : ℚ := 0
deriving DecidableEq

/-- `TestSuiteResult` dataclass (identical fields in both schemas). -/
structure TestSuiteResult where
  total : ℤ := 0
  passed : ℤ := 0
  failed : ℤ := 0
  errors : ℤ := 0
  results : List TestResult := []
  pass_rate : ℚ := 0
deriving DecidableEq

/-- IITB `TestSuiteResult.compute_pass_rate`: sets
`pass_rate = round(passed / total, 4)` when `total > 0`, otherwise leaves
the field unchanged. -/
def TestSuiteResult.compute_pass_rate (t : TestSuiteResult) : TestSuiteResult :=
  if 0 < t.total then
    { t with pass_rate := pyRound 4 ((t.passed : ℚ) / (t.total : ℚ)) }
  else t

/-- `StaticWarning` record. The V2 schema names the rule field `code` and
keeps a `file` field instead of `column`/`severity`; only the rule
identifier and the count of warnings are consumed by the embedded
functions, so one record serves both trees. -/
structure StaticWarning where
  rule : String
  message : String := ""
  line : ℤ := 0
  column : ℤ := 0
  severity : String := "warning"
deriving DecidableEq

/-- `ExecutionArtifact` dataclass (identical fields in both schemas). -/
structure ExecutionArtifact where
  test_results : TestSuiteResult := {}
  static_warnings : List StaticWarning := []
  runtime_errors : String := ""
  execution_time : ℚ := 0
  sandbox_violation : Bool := false
  timeout : Bool := false
deriving DecidableEq

/-- `RubricScores` dataclass (identical fields in both schemas). -/
structure RubricScores where
  correctness : ℚ := 0
  edge_cases : ℚ := 0
  complexity : ℚ := 0
  style : ℚ := 0
  clarity : ℚ := 0
deriving DecidableEq

/-- The five rubric dimensions. -/
inductive Dim where
  | correctness
  | edge_cases
  | complexity
  | style
  | clarity
deriving DecidableEq

/-- Dimension accessor (Python `getattr(scores, dim)`). -/
def RubricScores.dim (s : RubricScores) : Dim → ℚ
  | Dim.correctness => s.correctness
  | Dim.edge_cases => s.edge_cases
  | Dim.complexity => s.complexity
  | Dim.style => s.style
  | Dim.clarity => s.clarity

/-- The `DIMENSIONS` list of `consensus_agent.py` (also the tuple iterated
by rule 6 of the V2 auditor). -/
def DIMENSIONS : List Dim :=
  [Dim.correctness, Dim.edge_cases, Dim.complexity, Dim.style, Dim.clarity]

/-- V2 `RubricScores.overall(weights)`: plain weighted sum, no rounding. -/
def RubricScores.overall (s : RubricScores) (w : RubricWeights) : ℚ :=
  w.correctness * s.correctness
    + w.edge_cases * s.edge_cases
    + w.complexity * s.complexity
    + w.style * s.style
    + w.clarity * s.clarity

/-- IITB `RubricScores.overall()`: fixed default weights, rounded to four
decimal places. -/
def RubricScores.overall_iitb (s : RubricScores) : ℚ :=
  pyRound 4 (s.correctness * (35/100) + s.edge_cases * (20/100)
    + s.complexity * (15/100) + s.style * (15/100) + s.clarity * (15/100))

/-- V2 `AgentJudgment` dataclass. -/
structure AgentJudgment where
  agent_name : String
  scores : RubricScores := {}
  reasoning : String := ""
  issues : List String := []
  suggestions : List String := []
  confidence : ℚ := 0
  model_used : String := ""
  fallback : Bool := false
deriving DecidableEq

/-- V2 `ConsensusResult` dataclass; the `agent_scores` dict is modelled as
an association list in insertion order. -/
structure ConsensusResult where
  scores : RubricScores := {}
  agent_scores : List (String × RubricScores) := []
  disagreements : List String := []
  confidence : ℚ := 0
  model_used : String := ""
  reasoning : String := ""
deriving DecidableEq

/-- Flag severities of the V2 auditor. -/
inductive Severity where
  | low
  | medium
  | high
deriving DecidableEq

/-- V2 `HallucinationFlag`. The human-readable `description` string is
presentation only and is elided; a flag is identified by its dimension and
severity (plus, in the theorems, the rule that produced it). -/
structure HallucinationFlag where
  dimension : Dim
  severity : Severity
deriving DecidableEq

/-- IITB `LLMJudgment` dataclass. -/
structure LLMJudgment where
  scores : RubricScores := {}
  issues : List String := []
  suggestions : List String := []
  evidence_used : List String := []
  confidence : ℚ := 0
  uncertainty_flags : List String := []
  raw_response : String := ""
deriving DecidableEq

/-- One entry of the `details` array of the worker JSON block. -/
structure JsonDetail where
  name : String := ""
  status : String := ""
  message : String := ""
deriving DecidableEq

/-- The sentinel-delimited JSON block written by the sandbox worker
(`{total, passed, failed, errors, elapsed, details}`). -/
structure JsonData where
  total : ℤ := 0
  passed : ℤ := 0
  failed : ℤ := 0
  errors : ℤ := 0
  elapsed : ℚ := 0
  details : List JsonDetail := []
deriving DecidableEq

/-- The raw dictionary returned by `run_in_sandbox` (identical shape in
both trees). The stdout channel is abstracted: `json_result` is `some d`
exactly when stdout contains the `===JSON_RESULT===` sentinel followed by
a JSON object that parses (the job of `extract_json_result` in IITB and
of the inline split/`json.loads` in V2), and `none` otherwise. -/
structure RawSandboxResult where
  json_result : Option JsonData := none
  stderr : String := ""
  returncode : ℤ := 0
  execution_time : ℚ := 0
  timeout : Bool := false
  sandbox_violation : Bool := false
  violations : List String := []
deriving DecidableEq

/-- IITB `run_tests` (test_runner.py), after the `run_in_sandbox` call:
degrades timeout, sandbox violation, and absent/unparsable JSON to a
synthetic one-test suite, otherwise copies the worker counts and details.
It is a total function: no exception escapes this boundary. -/
def run_tests (raw : RawSandboxResult) (timeLimit : ℚ) : TestSuiteResult :=
  if raw.timeout then
    TestSuiteResult.compute_pass_rate
      { total := 1, passed := 0, failed := 1, errors := 0
        results := [{ test_name := "execution", passed := false
                      message := "Timeout after " ++ ratStr timeLimit ++ "s" }]
        pass_rate := 0 }
  else if raw.sandbox_violation then
    TestSuiteResult.compute_pass_rate
      { total := 1, passed := 0, failed := 0, errors := 1
        results := [{ test_name := "sandbox_check", passed := false
                      message := "Sandbox violation: " ++ toString raw.violations }]
        pass_rate := 0 }
  else
    match raw.json_result with
    | none =>
        TestSuiteResult.compute_pass_rate
          { total := 1, passed := 0, failed := 0, errors := 1
            results := [{ test_name := "execution", passed := false
                          message := "Failed to parse results. stderr: "
                            ++ (if raw.stderr = "" then "Unknown error"
                                else raw.stderr.take 500) }]
            pass_rate := 0 }
    | some d =>
        TestSuiteResult.compute_pass_rate
          { total := d.total, passed := d.passed, failed := d.failed
            errors := d.errors
            results := d.details.map (fun det =>
              { test_name := det.name, passed := det.status = "PASS"
                message := det.message, execution_time := d.elapsed })
            pass_rate := 0 }

/-- V2 `parse_sandbox_output` (deterministic_engine.py): builds a
`TestSuiteResult` from the JSON block with the exact quotient
`passed / total` as pass rate; when the sentinel or the JSON is missing
or malformed it returns the default (empty, `total = 0`) suite. -/
def parse_sandbox_output (raw : RawSandboxResult) : TestSuiteResult :=
  match raw.json_result with
  | some d =>
      { total := d.total, passed := d.passed, failed := d.failed
        errors := d.errors
        results := d.details.map (fun det =>
          { test_name := det.name, passed := det.status = "PASS"
            message := det.message, execution_time := d.elapsed })
        pass_rate := if 0 < d.total then (d.passed : ℚ) / (d.total : ℚ) else 0 }
  | none => {}

/-- Structural features of the submission source, as produced by the
`ast`-based analysis of the rubric engine (the Source Model interface of
the spec). `parses` is false exactly when `ast.parse` raises a
SyntaxError; the remaining fields are the quantities the engine extracts
from the tree and from the raw text. -/
structure SourceModel where
  parses : Bool := true
  loopNesting : ℕ := 0
  hasRecursion : Bool := false
  hasMemo : Bool := false
  numLines : ℕ := 1
  badSingleCharNames : ℕ := 0
  longLines : ℕ := 0
  crampedLines : ℕ := 0
  funcCount : ℕ := 0
  shortFuncNames : ℕ := 0
  hasDocstring : Bool := false
  commentLines : ℕ := 0
deriving DecidableEq

/-- V2 `style_score_from_warnings` (deterministic_engine.py):
warning-density staircase over the raw warning count. -/
def style_score_from_warnings (warnings : List StaticWarning)
    (code_lines : ℕ) : ℚ :=
  if code_lines = 0 then 5
  else
    let density : ℚ := (warnings.length : ℚ) / (max code_lines 1 : ℕ)
    if density = 0 then 10
    else if density < 5/100 then 9
    else if density < 1/10 then 8
    else if density < 2/10 then 6
    else if density < 3/10 then 4
    else if density < 5/10 then 2
    else 1

/-- IITB `style_score_from_warnings` (static_analysis.py): the same
staircase, but warnings carrying the TOOL_ERROR sentinel rule are
excluded from the density count
(`len([w for w in warnings if w.rule != "TOOL_ERROR"])`). -/
def style_score_from_warnings_iitb (warnings : List StaticWarning)
    (code_lines : ℕ) : ℚ :=
  if code_lines = 0 then 5
  else
    let density : ℚ :=
      (((warnings.filter (fun w => w.rule != "TOOL_ERROR")).length : ℚ))
        / (max code_lines 1 : ℕ)
    if density = 0 then 10
    else if density < 5/100 then 9
    else if density < 1/10 then 8
    else if density < 2/10 then 6
    else if density < 3/10 then 4
    else if density < 5/10 then 2
    else 1

/-- `compute_correctness` (V2) = `compute_correctness_score` (IITB):
`round(pass_rate * 10, 2)`. -/
def compute_correctness (t : TestSuiteResult) : ℚ :=
  pyRound 2 (t.pass_rate * 10)

/-- `compute_edge_cases` (V2) = `compute_edge_case_score` (IITB): the
piecewise partial-credit curve in `pass_rate`, no rounding. -/
def compute_edge_cases (t : TestSuiteResult) : ℚ :=
  if t.total = 0 then 0
  else if 1 ≤ t.pass_rate then 10
  else if 4/5 ≤ t.pass_rate then 7 + (t.pass_rate - 4/5) * 15
  else if 1/2 ≤ t.pass_rate then 4 + (t.pass_rate - 1/2) * 10
  else t.pass_rate * 8

/-- `compute_complexity` (V2) = `estimate_complexity` (IITB): loop-nesting
penalty schedule chosen by substring tests on the expected-complexity
label, then the recursion-without-memoization cap at 6. -/
def compute_complexity (src : SourceModel) (expected : String) : ℚ :=
  if src.parses = false then 3
  else
    pyRound 2 (
      let score : ℚ :=
        if strContains expected "O(n)" || strContains expected "O(V+E)" then
          if 3 ≤ src.loopNesting then 2
          else if 2 ≤ src.loopNesting then 5
          else if src.loopNesting = 1 then 9
          else 10
        else if strContains expected "O(n^2)" then
          if 3 ≤ src.loopNesting then 4
          else if 2 ≤ src.loopNesting then 8
          else 10
        else 10
      if src.hasRecursion && !src.hasMemo && strContains expected "O(n)" then
        min score 6
      else score)

/-- V2 `compute_style`: density base score minus deductions for
single-character names (0.3 each, 2.0 flat when unparseable) and long
lines (0.3 each, capped at 2.0), clamped to [0, 10] and rounded. -/
def compute_style (src : SourceModel) (warnings : List StaticWarning) : ℚ :=
  pyRound 2 (max 0 (min 10
    (style_score_from_warnings warnings src.numLines
      - ((if src.parses then (3/10) * (src.badSingleCharNames : ℚ) else 2)
        + (if 0 < src.longLines then min ((src.longLines : ℚ) * (3/10)) 2 else 0)))))

/-- IITB `compute_style_score`: as V2, but over the TOOL_ERROR-filtered
density base, plus a flat 1.0 deduction when more than two lines have
cramped comparison operators. -/
def compute_style_iitb (src : SourceModel) (warnings : List StaticWarning) : ℚ :=
  pyRound 2 (max 0 (min 10
    (style_score_from_warnings_iitb warnings src.numLines
      - ((if src.parses then (3/10) * (src.badSingleCharNames : ℚ) else 2)
        + (if 0 < src.longLines then min ((src.longLines : ℚ) * (3/10)) 2 else 0)
        + (if 2 < src.crampedLines then 1 else 0)))))

/-- `compute_clarity` (V2) = `compute_clarity_score` (IITB): base 8 with
length, short-function-name, docstring and comment adjustments, clamped
to [0, 10] and rounded. -/
def compute_clarity (src : SourceModel) : ℚ :=
  pyRound 2 (max 0 (min 10
    ((8 : ℚ)
      - (if 50 < src.numLines then 2 else if 30 < src.numLines then 1 else 0)
      - (if src.parses then
          (if 0 < src.funcCount ∧ src.funcCount < 2 * src.shortFuncNames
            then 2 else 0)
        else 3)
      + (if src.hasDocstring then 1 else 0)
      + (if 0 < src.commentLines ∧ 10 < src.numLines then 1/2 else 0))))

/-- V2 `compute_deterministic_scores`. -/
def compute_deterministic_scores (src : SourceModel) (t : TestSuiteResult)
    (warnings : List StaticWarning) (expected : String) : RubricScores :=
  { correctness := compute_correctness t
    edge_cases := compute_edge_cases t
    complexity := compute_complexity src expected
    style := compute_style src warnings
    clarity := compute_clarity src }

/-- IITB `compute_deterministic_scores` (rubric_engine.py); differs from
V2 only in the style heuristic. -/
def compute_deterministic_scores_iitb (src : SourceModel) (t : TestSuiteResult)
    (warnings : List StaticWarning) (expected : String) : RubricScores :=
  { correctness := compute_correctness t
    edge_cases := compute_edge_cases t
    complexity := compute_complexity src expected
    style := compute_style_iitb src warnings
    clarity := compute_clarity src }

/-- The weight a judgment gets in `run_deterministic_consensus`:
`j.confidence if not j.fallback else 0.1`. -/
def judgeWeight (j : AgentJudgment) : ℚ :=
  if j.fallback then 1/10 else j.confidence

/-- Accumulated `total_weight` of the per-dimension loop. -/
def totalWeight (js : List AgentJudgment) : ℚ :=
  (js.map judgeWeight).sum

/-- Accumulated `weighted_sum` of the per-dimension loop. -/
def weightedSum (js : List AgentJudgment) (d : Dim) : ℚ :=
  (js.map (fun j => j.scores.dim d * judgeWeight j)).sum

/-- The merged value of one dimension in `run_deterministic_consensus`:
`round(weighted_sum / total_weight, 2) if total_weight > 0 else` the
deterministic value. -/
def mergedDim (det : RubricScores) (js : List AgentJudgment) (d : Dim) : ℚ :=
  if 0 < totalWeight js then pyRound 2 (weightedSum js d / totalWeight js)
  else det.dim d

/-- The Python dict comprehension `{j.agent_name: score for j in judgments}`:
keys in first-occurrence order, each carrying the judgment of the last
occurrence of its name. -/
def dedupByName (js : List AgentJudgment) : List AgentJudgment :=
  js.foldl (fun acc j =>
    if acc.any (fun a => a.agent_name = j.agent_name) then
      acc.map (fun a => if a.agent_name = j.agent_name then j else a)
    else acc ++ [j]) []

/-- Maximum of a list of rationals; Python `max` on the (always nonempty
at the call site) value list. -/
def maxList (l : List ℚ) : ℚ := l.foldl max (l.headD 0)

/-- Minimum of a list of rationals. -/
def minList (l : List ℚ) : ℚ := l.foldl min (l.headD 0)

/-- `_detect_disagreements` (consensus_agent.py): one flag string per
dimension whose opinion spread exceeds the threshold. -/
def detect_disagreements (js : List AgentJudgment) (threshold : ℚ) :
    List String :=
  DIMENSIONS.filterMap (fun d =>
    let vals := dedupByName js
    let scores := vals.map (fun j => j.scores.dim d)
    if threshold < maxList scores - minList scores then
      some (dimName d ++ ": " ++ String.intercalate ", "
        (vals.map (fun j => j.agent_name ++ "=" ++ ratStr (j.scores.dim d))))
    else none)
where
  dimName : Dim → String
    | Dim.correctness => "correctness"
    | Dim.edge_cases => "edge_cases"
    | Dim.complexity => "complexity"
    | Dim.style => "style"
    | Dim.clarity => "clarity"

/-- `run_deterministic_consensus` (consensus_agent.py): the deterministic
fallback branch for an empty or all-fallback judgment list, otherwise the
confidence-weighted per-dimension average. -/
def run_deterministic_consensus (det_scores : RubricScores)
    (judgments : List AgentJudgment) : ConsensusResult :=
  if judgments.all (fun j => j.fallback) = true ∨ judgments = [] then
    { scores := det_scores
      agent_scores := judgments.map (fun j => (j.agent_name, j.scores))
      disagreements := []
      confidence := if judgments = [] then 1 else 3/10
      model_used := ""
      reasoning := "All agents used deterministic fallback — consensus equals deterministic scores." }
  else
    { scores :=
        { correctness := mergedDim det_scores judgments Dim.correctness
          edge_cases := mergedDim det_scores judgments Dim.edge_cases
          complexity := mergedDim det_scores judgments Dim.complexity
          style := mergedDim det_scores judgments Dim.style
          clarity := mergedDim det_scores judgments Dim.clarity }
      agent_scores := judgments.map (fun j => (j.agent_name, j.scores))
      disagreements := detect_disagreements judgments 2
      confidence :=
        pyRound 2
          (((judgments.filter (fun j => !j.fallback)).map
              (fun j => j.confidence)).sum
            / (max 1 ((judgments.filter (fun j => !j.fallback)).length) : ℕ))
      model_used := ""
      reasoning := "Deterministic consensus via confidence-weighted averaging." }

/-- V2 auditor rule 1: high correctness against a low pass rate. -/
def high_correctness_flags (cs : RubricScores) (tr : TestSuiteResult) :
    List HallucinationFlag :=
  if 7 < cs.correctness ∧ tr.pass_rate < 7/10 then
    [{ dimension := Dim.correctness, severity := Severity.high }]
  else []

/-- V2 auditor rule 2: low correctness against a high pass rate. -/
def low_correctness_flags (cs : RubricScores) (tr : TestSuiteResult) :
    List HallucinationFlag :=
  if cs.correctness < 3 ∧ 9/10 < tr.pass_rate then
    [{ dimension := Dim.correctness, severity := Severity.high }]
  else []

/-- V2 auditor rule 3: high edge-case score against a low pass rate. -/
def edge_case_flags (cs : RubricScores) (tr : TestSuiteResult) :
    List HallucinationFlag :=
  if 8 < cs.edge_cases ∧ tr.pass_rate < 4/5 then
    [{ dimension := Dim.edge_cases, severity := Severity.medium }]
  else []

/-- V2 auditor rule 4: high style score against many static warnings. -/
def style_warning_flags (cs : RubricScores) (warning_count : ℕ) :
    List HallucinationFlag :=
  if 8 < cs.style ∧ 5 < warning_count then
    [{ dimension := Dim.style, severity := Severity.medium }]
  else []

/-- V2 auditor rule 5a: positive correctness despite a timeout. -/
def timeout_flags (cs : RubricScores) (artifact : ExecutionArtifact) :
    List HallucinationFlag :=
  if artifact.timeout ∧ 3 < cs.correctness then
    [{ dimension := Dim.correctness, severity := Severity.high }]
  else []

/-- V2 auditor rule 5b: positive correctness despite a sandbox violation. -/
def sandbox_flags (cs : RubricScores) (artifact : ExecutionArtifact) :
    List HallucinationFlag :=
  if artifact.sandbox_violation ∧ 0 < cs.correctness then
    [{ dimension := Dim.correctness, severity := Severity.high }]
  else []

/-- V2 auditor rule 6: deviation above three points from the
deterministic value, per dimension. -/
def deviation_flags (det cs : RubricScores) : List HallucinationFlag :=
  DIMENSIONS.filterMap (fun d =>
    if 3 < |det.dim d - cs.dim d| then
      some { dimension := d, severity := Severity.medium }
    else none)

/-- V2 `audit` (hallucination_auditor.py): the rules fire independently,
in source order. -/
def audit (det_scores : RubricScores) (consensus : ConsensusResult)
    (artifact : ExecutionArtifact) : List HallucinationFlag :=
  high_correctness_flags consensus.scores artifact.test_results
    ++ low_correctness_flags consensus.scores artifact.test_results
    ++ edge_case_flags consensus.scores artifact.test_results
    ++ style_warning_flags consensus.scores artifact.static_warnings.length
    ++ timeout_flags consensus.scores artifact
    ++ sandbox_flags consensus.scores artifact
    ++ deviation_flags det_scores consensus.scores

/-- IITB auditor rule 1a: claimed high correctness, low pass rate. -/
def iitb_high_correctness_flags (artifact : ExecutionArtifact)
    (judgment : LLMJudgment) : List String :=
  if 7 < judgment.scores.correctness
      ∧ artifact.test_results.pass_rate < 7/10 then
    ["HALLUCINATION: LLM claims high correctness ("
      ++ ratStr judgment.scores.correctness ++ ") but test pass rate is only "
      ++ pctStr artifact.test_results.pass_rate]
  else []

/-- IITB auditor rule 1b: claimed low correctness, high pass rate. -/
def iitb_low_correctness_flags (artifact : ExecutionArtifact)
    (judgment : LLMJudgment) : List String :=
  if judgment.scores.correctness < 3
      ∧ 9/10 < artifact.test_results.pass_rate then
    ["HALLUCINATION: LLM claims low correctness ("
      ++ ratStr judgment.scores.correctness ++ ") but test pass rate is "
      ++ pctStr artifact.test_results.pass_rate]
  else []

/-- IITB auditor rule 2: claimed edge-case handling, low pass rate. -/
def iitb_edge_case_flags (artifact : ExecutionArtifact)
    (judgment : LLMJudgment) : List String :=
  if 8 < judgment.scores.edge_cases
      ∧ artifact.test_results.pass_rate < 4/5 then
    ["HALLUCINATION: LLM claims good edge case handling ("
      ++ ratStr judgment.scores.edge_cases ++ ") but overall pass rate is "
      ++ pctStr artifact.test_results.pass_rate]
  else []

/-- The warning count of the IITB auditor: warnings whose rule is not the
TOOL_ERROR sentinel. -/
def iitbWarningCount (artifact : ExecutionArtifact) : ℕ :=
  (artifact.static_warnings.filter (fun w => w.rule != "TOOL_ERROR")).length

/-- IITB auditor rule 3a: claimed good style, many warnings. -/
def iitb_good_style_flags (artifact : ExecutionArtifact)
    (judgment : LLMJudgment) : List String :=
  if 8 < judgment.scores.style ∧ 5 < iitbWarningCount artifact then
    ["HALLUCINATION: LLM claims good style ("
      ++ ratStr judgment.scores.style ++ ") but there are "
      ++ toString (iitbWarningCount artifact) ++ " static analysis warnings"]
  else []

/-- IITB auditor rule 3b: claimed poor style, zero warnings. -/
def iitb_poor_style_flags (artifact : ExecutionArtifact)
    (judgment : LLMJudgment) : List String :=
  if judgment.scores.style < 3 ∧ iitbWarningCount artifact = 0 then
    ["HALLUCINATION: LLM claims poor style ("
      ++ ratStr judgment.scores.style
      ++ ") but there are no static analysis warnings"]
  else []

/-- IITB auditor rule 4: high confidence with little cited evidence. -/
def iitb_confidence_flags (judgment : LLMJudgment) : List String :=
  if 8/10 < judgment.confidence ∧ judgment.evidence_used.length < 2 then
    ["SUSPICIOUS: High confidence (" ++ ratStr judgment.confidence
      ++ ") with only " ++ toString judgment.evidence_used.length
      ++ " evidence sources"]
  else []

/-- IITB auditor rule 5a: any correctness credit despite a timeout. Note
the threshold is 2.0, not the 3 of the V2 auditor. -/
def iitb_timeout_flags (artifact : ExecutionArtifact)
    (judgment : LLMJudgment) : List String :=
  if artifact.timeout ∧ 2 < judgment.scores.correctness then
    ["HALLUCINATION: LLM gives correctness score despite code timeout"]
  else []

/-- IITB auditor rule 5b: any correctness credit despite a sandbox
violation. -/
def iitb_sandbox_flags (artifact : ExecutionArtifact)
    (judgment : LLMJudgment) : List String :=
  if artifact.sandbox_violation ∧ 0 < judgment.scores.correctness then
    ["HALLUCINATION: LLM gives correctness score despite sandbox violation"]
  else []

/-- IITB auditor rule 6: failed tests but an empty issue list. -/
def iitb_no_issue_flags (artifact : ExecutionArtifact)
    (judgment : LLMJudgment) : List String :=
  if 0 < artifact.test_results.failed ∧ judgment.issues = [] then
    ["SUSPICIOUS: No issues reported but "
      ++ toString artifact.test_results.failed ++ " tests failed"]
  else []

/-- IITB `audit_hallucinations` (consistency_checker.py): plain flag
strings, no severity tags, rules in source order. -/
def audit_hallucinations (artifact : ExecutionArtifact)
    (judgment : LLMJudgment) : List String :=
  iitb_high_correctness_flags artifact judgment
    ++ iitb_low_correctness_flags artifact judgment
    ++ iitb_edge_case_flags artifact judgment
    ++ iitb_good_style_flags artifact judgment
    ++ iitb_poor_style_flags artifact judgment
    ++ iitb_confidence_flags judgment
    ++ iitb_timeout_flags artifact judgment
    ++ iitb_sandbox_flags artifact judgment
    ++ iitb_no_issue_flags artifact judgment

/-- A JSON value appearing as a score in a parsed judge response, as seen
by Python `float(...)`: a number, a string that `float` parses (its value
carried), a string that `float` rejects, a boolean, `null`, or another
container type. -/
inductive PyVal where
  | num (q : ℚ)
  | numStr (q : ℚ)
  | badStr (s : String)
  | pyBool (b : Bool)
  | pyNone
  | container
deriving DecidableEq

/-- Python `float(v)`: `some` of the numeric value when the conversion
succeeds, `none` when it raises (ValueError for a bad string, TypeError
for `None` or a container). -/
def pyFloat : PyVal → Option ℚ
  | PyVal.num q => some q
  | PyVal.numStr q => some q
  | PyVal.badStr _ => none
  | PyVal.pyBool b => some (if b then 1 else 0)
  | PyVal.pyNone => none
  | PyVal.container => none

/-- `_clamp` of the V2 agents (test_designer.py, code_reviewer.py,
complexity_analyst.py, consensus_agent.py): clamp to `[lo, hi]`, and
`5.0` when `float(v)` raises. -/
def clamp_agent (v : PyVal) (lo hi : ℚ) : ℚ :=
  match pyFloat v with
  | some x => max lo (min hi x)
  | none => 5

/-- `_clamp` of the IITB judge (llm_judge.py): clamp to `[lo, hi]` and
round to two decimals, with no exception handler — `none` models the
ValueError/TypeError escaping the function. -/
def clamp_judge (v : PyVal) (lo hi : ℚ) : Option ℚ :=
  (pyFloat v).map (fun x => pyRound 2 (max lo (min hi x)))

/-- The five values of the `scores` object of a parsed judge response.
A response lacking a key is represented by storing `PyVal.num` of the
deterministic default that the `.get` call substitutes (the IITB parser
rejects responses with missing keys before this point). -/
structure ParsedScores where
  correctness : PyVal
  edge_cases : PyVal
  complexity : PyVal
  style : PyVal
  clarity : PyVal
deriving DecidableEq

/-- The `RubricScores` built by the V2 agents from a parsed response
(e.g. test_designer.py `run`): every dimension goes through `_clamp`. -/
def build_scores_agent (s : ParsedScores) : RubricScores :=
  { correctness := clamp_agent s.correctness 0 10
    edge_cases := clamp_agent s.edge_cases 0 10
    complexity := clamp_agent s.complexity 0 10
    style := clamp_agent s.style 0 10
    clarity := clamp_agent s.clarity 0 10 }

/-- The scores part of IITB `_build_judgment` (llm_judge.py): every
dimension goes through the rounding `_clamp`; the result is `none` when
any conversion raises, modelling the exception escaping `_build_judgment`
(it is caught by the retry loop of `judge_submission`, which then
discards the attempt). The non-score fields of `LLMJudgment` are not
relevant to the claims and are omitted. -/
def build_judgment (s : ParsedScores) : Option RubricScores := do
  let c ← clamp_judge s.correctness 0 10
  let e ← clamp_judge s.edge_cases 0 10
  let x ← clamp_judge s.complexity 0 10
  let st ← clamp_judge s.style 0 10
  let cl ← clamp_judge s.clarity 0 10
  pure { correctness := c, edge_cases := e, complexity := x
         style := st, clarity := cl }

/-- The score-blending tail of V2 `evaluate_single` (orchestrator.py,
steps 2 and 5): the deterministic overall is returned unchanged when the
LLM layer is disabled or no models are configured; otherwise the judge
weight is multiplied by the reduction factor when any hallucination flag
fired, and the blend happens only when the consensus confidence reaches
0.4 and not every agent fell back. -/
def final_score_v2 (llmEnabled : Bool) (models : List String)
    (det_overall : ℚ) (consensus : ConsensusResult)
    (judgments : List AgentJudgment) (h_flags : List HallucinationFlag)
    (llm_weight reduction : ℚ) : ℚ :=
  if llmEnabled = false ∨ models = [] then det_overall
  else
    let w := if h_flags = [] then llm_weight else llm_weight * reduction
    let consensus_overall := consensus.scores.overall defaultWeights
    if 4/10 ≤ consensus.confidence
        ∧ ¬ judgments.all (fun j => j.fallback) then
      pyRound 4 (det_overall * (1 - w) + consensus_overall * w)
    else det_overall

/-- The final-score computation of IITB `evaluate_single_submission`
(orchestrator.py, step 7): blend only when the judgment confidence is at
least 0.5 and no hallucination flag fired; otherwise the deterministic
overall is reported unchanged. -/
def final_score_iitb (det_overall llm_overall : ℚ) (confidence : ℚ)
    (h_flags : List String) (llm_weight : ℚ) : ℚ :=
  if 1/2 ≤ confidence ∧ h_flags = [] then
    pyRound 4 (det_overall * (1 - llm_weight) + llm_overall * llm_weight)
  else det_overall

section PyRoundLemmas

/-- Rounding never climbs above an integer bound that dominates the
argument. -/
theorem pyRound_le_intCast (n : ℕ) (b : ℤ) {q : ℚ} (h : q ≤ (b : ℚ)) :
    pyRound n q ≤ (b : ℚ) := by
  have hm : (0:ℚ) < (10:ℚ) ^ n := by positivity
  have hs : q * (10:ℚ) ^ n ≤ (b : ℚ) * (10:ℚ) ^ n :=
    mul_le_mul_of_nonneg_right h hm.le
  have hcast : ((b * 10 ^ n : ℤ) : ℚ) = (b : ℚ) * (10:ℚ) ^ n := by
    push_cast
    ring
  have hfl : ⌊q * (10:ℚ) ^ n⌋ ≤ b * 10 ^ n := by
    have h2 := Int.floor_le_floor (α := ℚ) (hs.trans_eq hcast.symm)
    rw [Int.floor_intCast] at h2
    exact h2
  have key : ¬ (q * (10:ℚ) ^ n - (⌊q * (10:ℚ) ^ n⌋ : ℚ) < 1/2) →
      ⌊q * (10:ℚ) ^ n⌋ + 1 ≤ b * 10 ^ n := by
    intro hc
    rcases lt_or_eq_of_le hfl with hlt | heq
    · omega
    · exfalso
      have hle0 : q * (10:ℚ) ^ n - (⌊q * (10:ℚ) ^ n⌋ : ℚ) ≤ 0 := by
        have : ((⌊q * (10:ℚ) ^ n⌋ : ℤ) : ℚ) = (b : ℚ) * (10:ℚ) ^ n := by
          rw [heq]
          exact hcast
        linarith [hs, this.ge.trans_eq rfl]
      have : (1:ℚ)/2 ≤ q * (10:ℚ) ^ n - (⌊q * (10:ℚ) ^ n⌋ : ℚ) :=
        le_of_not_lt hc
      linarith
  simp only [pyRound]
  rw [div_le_iff₀ hm]
  split_ifs with h1 h2 h3
  · have := key (by linarith)
    calc ((⌊q * (10:ℚ) ^ n⌋ + 1 : ℤ) : ℚ) ≤ ((b * 10 ^ n : ℤ) : ℚ) := by
          exact_mod_cast this
      _ = (b : ℚ) * (10:ℚ) ^ n := hcast
  · calc ((⌊q * (10:ℚ) ^ n⌋ : ℤ) : ℚ) ≤ ((b * 10 ^ n : ℤ) : ℚ) := by
          exact_mod_cast hfl
      _ = (b : ℚ) * (10:ℚ) ^ n := hcast
  · calc ((⌊q * (10:ℚ) ^ n⌋ : ℤ) : ℚ) ≤ ((b * 10 ^ n : ℤ) : ℚ) := by
          exact_mod_cast hfl
      _ = (b : ℚ) * (10:ℚ) ^ n := hcast
  · have := key h2
    calc ((⌊q * (10:ℚ) ^ n⌋ + 1 : ℤ) : ℚ) ≤ ((b * 10 ^ n : ℤ) : ℚ) := by
          exact_mod_cast this
      _ = (b : ℚ) * (10:ℚ) ^ n := hcast

/-- Rounding never drops below an integer bound dominated by the
argument. -/
theorem intCast_le_pyRound (n : ℕ) (b : ℤ) {q : ℚ} (h : (b : ℚ) ≤ q) :
    (b : ℚ) ≤ pyRound n q := by
  have hm : (0:ℚ) < (10:ℚ) ^ n := by positivity
  have hcast : ((b * 10 ^ n : ℤ) : ℚ) = (b : ℚ) * (10:ℚ) ^ n := by
    push_cast
    ring
  have hfl : b * 10 ^ n ≤ ⌊q * (10:ℚ) ^ n⌋ := by
    apply Int.le_floor.mpr
    rw [hcast]
    exact mul_le_mul_of_nonneg_right h hm.le
  simp only [pyRound]
  rw [le_div_iff₀ hm]
  have hfl2 : (b : ℚ) * (10:ℚ) ^ n ≤ ((⌊q * (10:ℚ) ^ n⌋ : ℤ) : ℚ) := by
    rw [← hcast]
    exact_mod_cast hfl
  split_ifs with h1 h2 h3
  · have : (b : ℚ) * (10:ℚ) ^ n ≤ ((⌊q * (10:ℚ) ^ n⌋ + 1 : ℤ) : ℚ) := by
      push_cast at hfl2 ⊢
      linarith
    exact this
  · exact hfl2
  · exact hfl2
  · have : (b : ℚ) * (10:ℚ) ^ n ≤ ((⌊q * (10:ℚ) ^ n⌋ + 1 : ℤ) : ℚ) := by
      push_cast at hfl2 ⊢
      linarith
    exact this

/-- Rounding a nonnegative rational is nonnegative. -/
theorem pyRound_nonneg (n : ℕ) {q : ℚ} (h : 0 ≤ q) : 0 ≤ pyRound n q := by
  have := intCast_le_pyRound n 0 (q := q) (by exact_mod_cast h)
  simpa using this

/-- Rounding a rational at most one stays at most one. -/
theorem pyRound_le_one (n : ℕ) {q : ℚ} (h : q ≤ 1) : pyRound n q ≤ 1 := by
  have := pyRound_le_intCast n 1 (q := q) (by exact_mod_cast h)
  simpa using this

/-- Rounding a rational at most ten stays at most ten. -/
theorem pyRound_le_ten (n : ℕ) {q : ℚ} (h : q ≤ 10) : pyRound n q ≤ 10 := by
  have := pyRound_le_intCast n 10 (q := q) (by exact_mod_cast h)
  simpa using this

/-- The clamp used by the style and clarity scores lands in [0, 10] after
rounding. -/
theorem pyRound_clamp_mem (n : ℕ) (x : ℚ) :
    0 ≤ pyRound n (max 0 (min 10 x)) ∧ pyRound n (max 0 (min 10 x)) ≤ 10 := by
  constructor
  · exact pyRound_nonneg n (le_max_left 0 (min 10 x))
  · exact pyRound_le_ten n (max_le (by norm_num) (min_le_left 10 x))

/-- Rounding zero gives zero. -/
theorem pyRound_zero (n : ℕ) : pyRound n 0 = 0 := by
  simp [pyRound]

end PyRoundLemmas

section ClaimC2

/-- C2: the deterministic edge_cases score is the piecewise-linear
function of pass_rate — exactly 10 at pass_rate 1.0, `7 + (pr - 0.8) * 15`
on [0.8, 1.0), `4 + (pr - 0.5) * 10` on [0.5, 0.8), `pr * 8` below 0.5
(so 0 at pass_rate 0), and 0 whenever the suite has `total = 0`. -/
theorem c2_edge_cases_piecewise (t : TestSuiteResult) :
    (t.total = 0 → compute_edge_cases t = 0)
  ∧ (t.total ≠ 0 → t.pass_rate = 1 → compute_edge_cases t = 10)
  ∧ (t.total ≠ 0 → 4/5 ≤ t.pass_rate → t.pass_rate < 1 →
      compute_edge_cases t = 7 + (t.pass_rate - 4/5) * 15)
  ∧ (t.total ≠ 0 → 1/2 ≤ t.pass_rate → t.pass_rate < 4/5 →
      compute_edge_cases t = 4 + (t.pass_rate - 1/2) * 10)
  ∧ (t.total ≠ 0 → t.pass_rate < 1/2 → compute_edge_cases t = t.pass_rate * 8)
  ∧ (t.total ≠ 0 → t.pass_rate = 0 → compute_edge_cases t = 0) := by
  refine ⟨?_, ?_, ?_, ?_, ?_, ?_⟩
  · intro h
    unfold compute_edge_cases
    rw [if_pos h]
  · intro h0 h1
    unfold compute_edge_cases
    rw [if_neg h0, if_pos (by rw [h1] : (1 : ℚ) ≤ t.pass_rate)]
  · intro h0 h1 h2
    unfold compute_edge_cases
    rw [if_neg h0, if_neg (by linarith : ¬ (1 : ℚ) ≤ t.pass_rate), if_pos h1]
  · intro h0 h1 h2
    unfold compute_edge_cases
    rw [if_neg h0, if_neg (by linarith : ¬ (1 : ℚ) ≤ t.pass_rate),
      if_neg (by linarith : ¬ (4/5 : ℚ) ≤ t.pass_rate), if_pos h1]
  · intro h0 h1
    unfold compute_edge_cases
    rw [if_neg h0, if_neg (by linarith : ¬ (1 : ℚ) ≤ t.pass_rate),
      if_neg (by linarith : ¬ (4/5 : ℚ) ≤ t.pass_rate),
      if_neg (by linarith : ¬ (1/2 : ℚ) ≤ t.pass_rate)]
  · intro h0 h1
    unfold compute_edge_cases
    rw [if_neg h0, if_neg (by rw [h1]; norm_num : ¬ (1 : ℚ) ≤ t.pass_rate),
      if_neg (by rw [h1]; norm_num : ¬ (4/5 : ℚ) ≤ t.pass_rate),
      if_neg (by rw [h1]; norm_num : ¬ (1/2 : ℚ) ≤ t.pass_rate), h1, zero_mul]

/-- C2 witness: a five-test suite with three passes (pass_rate 0.6) lands
on the middle linear segment. -/
theorem c2_edge_cases_piecewise_witness :
    compute_edge_cases ⟨5, 3, 2, 0, [], 3/5⟩ = 4 + ((3/5 : ℚ) - 1/2) * 10 :=
  (c2_edge_cases_piecewise ⟨5, 3, 2, 0, [], 3/5⟩).2.2.2.1
    (by decide) (by norm_num) (by norm_num)

end ClaimC2

section ClaimC7

/-- C7 counterexample: the IITB test-running boundary rounds the pass
rate to four decimal places, so for a worker report of 1 passed test out
of 3 the stored `pass_rate` is 0.3333, not the exact quotient 1/3 that
the claim asserts. -/
theorem c7_pass_rate_rounded_cex :
    (run_tests { json_result := some { total := 3, passed := 1, failed := 2 } } 3).total = 3
  ∧ (run_tests { json_result := some { total := 3, passed := 1, failed := 2 } } 3).passed = 1
  ∧ (run_tests { json_result := some { total := 3, passed := 1, failed := 2 } } 3).pass_rate
      = 3333/10000
  ∧ (run_tests { json_result := some { total := 3, passed := 1, failed := 2 } } 3).pass_rate
      ≠ (1 : ℚ) / 3 := by
  have hpr :
      (run_tests { json_result := some { total := 3, passed := 1, failed := 2 } } 3).pass_rate
        = 3333/10000 := by
    show pyRound 4 (((1 : ℤ) : ℚ) / ((3 : ℤ) : ℚ)) = 3333/10000
    have hfl : ⌊((1 : ℤ) : ℚ) / ((3 : ℤ) : ℚ) * (10 : ℚ) ^ 4⌋ = 3333 := by
      norm_num
    simp only [pyRound, hfl]
    norm_num
  exact ⟨rfl, rfl, hpr, by rw [hpr]; norm_num⟩

/-- C7 amended: for every suite produced by either test-running boundary
from worker data with `0 ≤ passed ≤ total`, the pass rate lies in [0, 1];
it is 0 when `total = 0`, and for `total > 0` it equals `passed / total`
rounded to four decimal places in the IITB runner and exactly
`passed / total` in the V2 parser. -/
theorem c7_pass_rate_bounds (raw : RawSandboxResult) (tl : ℚ)
    (hjson : ∀ d : JsonData, raw.json_result = some d →
      0 ≤ d.passed ∧ d.passed ≤ d.total) :
    (0 ≤ (run_tests raw tl).pass_rate
      ∧ (run_tests raw tl).pass_rate ≤ 1
      ∧ ((run_tests raw tl).total = 0 → (run_tests raw tl).pass_rate = 0)
      ∧ (0 < (run_tests raw tl).total →
          (run_tests raw tl).pass_rate =
            pyRound 4 (((run_tests raw tl).passed : ℚ)
              / ((run_tests raw tl).total : ℚ))))
  ∧ (0 ≤ (parse_sandbox_output raw).pass_rate
      ∧ (parse_sandbox_output raw).pass_rate ≤ 1
      ∧ ((parse_sandbox_output raw).total = 0 →
          (parse_sandbox_output raw).pass_rate = 0)
      ∧ (0 < (parse_sandbox_output raw).total →
          (parse_sandbox_output raw).pass_rate =
            ((parse_sandbox_output raw).passed : ℚ)
              / ((parse_sandbox_output raw).total : ℚ))) := by
  have main : ∀ t : TestSuiteResult, 0 ≤ t.passed → t.passed ≤ t.total →
      t.pass_rate = 0 →
      0 ≤ t.compute_pass_rate.pass_rate
        ∧ t.compute_pass_rate.pass_rate ≤ 1
        ∧ (t.compute_pass_rate.total = 0 → t.compute_pass_rate.pass_rate = 0)
        ∧ (0 < t.compute_pass_rate.total →
            t.compute_pass_rate.pass_rate =
              pyRound 4 ((t.compute_pass_rate.passed : ℚ)
                / (t.compute_pass_rate.total : ℚ))) := by
    intro t h0 h1 hp
    unfold TestSuiteResult.compute_pass_rate
    split_ifs with ht
    · have htq : (0 : ℚ) < (t.total : ℚ) := by exact_mod_cast ht
      have hq0 : 0 ≤ (t.passed : ℚ) / (t.total : ℚ) :=
        div_nonneg (by exact_mod_cast h0) htq.le
      have hq1 : (t.passed : ℚ) / (t.total : ℚ) ≤ 1 :=
        (div_le_one htq).mpr (by exact_mod_cast h1)
      refine ⟨pyRound_nonneg _ hq0, pyRound_le_one _ hq1, ?_, ?_⟩
      · intro h
        have h2 : t.total = 0 := h
        omega
      · intro _
        rfl
    · have htz : t.total = 0 := by omega
      simp [hp, htz]
  constructor
  · by_cases hto : raw.timeout
    · have h := main
        { total := 1, passed := 0, failed := 1, errors := 0
          results := [{ test_name := "execution", passed := false
                        message := "Timeout after " ++ ratStr tl ++ "s" }]
          pass_rate := 0 } (by norm_num) (by norm_num) rfl
      simpa [run_tests, hto] using h
    · by_cases hsv : raw.sandbox_violation
      · have h := main
          { total := 1, passed := 0, failed := 0, errors := 1
            results := [{ test_name := "sandbox_check", passed := false
                          message := "Sandbox violation: "
                            ++ toString raw.violations }]
            pass_rate := 0 } (by norm_num) (by norm_num) rfl
        simpa [run_tests, hto, hsv] using h
      · cases hj : raw.json_result with
        | none =>
            have h := main
              { total := 1, passed := 0, failed := 0, errors := 1
                results := [{ test_name := "execution", passed := false
                              message := "Failed to parse results. stderr: "
                                ++ (if raw.stderr = "" then "Unknown error"
                                    else raw.stderr.take 500) }]
                pass_rate := 0 } (by norm_num) (by norm_num) rfl
            simpa [run_tests, hto, hsv, hj] using h
        | some d =>
            obtain ⟨hd0, hd1⟩ := hjson d hj
            have h := main
              { total := d.total, passed := d.passed, failed := d.failed
                errors := d.errors
                results := d.details.map (fun det =>
                  { test_name := det.name, passed := det.status = "PASS"
                    message := det.message, execution_time := d.elapsed })
                pass_rate := 0 } hd0 hd1 rfl
            simpa [run_tests, hto, hsv, hj] using h
  · cases hj : raw.json_result with
    | none => simp [parse_sandbox_output, hj]
    | some d =>
        obtain ⟨hd0, hd1⟩ := hjson d hj
        by_cases ht : 0 < d.total
        · have htq : (0 : ℚ) < (d.total : ℚ) := by exact_mod_cast ht
          have hq0 : 0 ≤ (d.passed : ℚ) / (d.total : ℚ) :=
            div_nonneg (by exact_mod_cast hd0) htq.le
          have hq1 : (d.passed : ℚ) / (d.total : ℚ) ≤ 1 :=
            (div_le_one htq).mpr (by exact_mod_cast hd1)
          refine ⟨?_, ?_, ?_, ?_⟩ <;>
            simp only [parse_sandbox_output, hj, if_pos ht] <;>
            first
              | trivial
              | exact hq0
              | exact hq1
              | (intro h; omega)
              | (intro h; trivial)
        · have htz : d.total = 0 := by omega
          refine ⟨?_, ?_, ?_, ?_⟩
          · simp only [parse_sandbox_output, hj, if_neg ht]
            norm_num
          · simp only [parse_sandbox_output, hj, if_neg ht]
            norm_num
          · intro h
            simp only [parse_sandbox_output, hj, if_neg ht]
          · intro h
            rw [parse_sandbox_output, hj] at h
            exact absurd h ht

/-- C7 witness: a worker report of 3 passed out of 4 gives a pass rate
inside [0, 1] through the IITB runner. -/
theorem c7_pass_rate_bounds_witness :
    (run_tests { json_result := some { total := 4, passed := 3, failed := 1 } } 3).pass_rate ≤ 1 :=
  (c7_pass_rate_bounds { json_result := some { total := 4, passed := 3, failed := 1 } } 3
    (by rintro d hd; injection hd with h; subst h; exact ⟨by decide, by decide⟩)).1.2.1

end ClaimC7

section ClaimC4

/-- C4 counterexample: the V2 sandbox-output parser does not build the
synthetic one-test suite — a worker that exits without the sentinel JSON
block (for example a crash with a traceback on stderr and exit code 1)
yields the default empty `TestSuiteResult` with `total = 0` and no test
record at all, not `total = 1` with a single failing test. -/
theorem c4_v2_empty_suite_cex :
    (parse_sandbox_output
        { stderr := "Traceback (most recent call last)", returncode := 1 }).total = 0
  ∧ (parse_sandbox_output
        { stderr := "Traceback (most recent call last)", returncode := 1 }).results = [] := by
  constructor <;> rfl

/-- C4 amended: in the IITB test-running boundary, a timeout and a worker
run that produces no sentinel-delimited JSON block (crash, nonzero exit
without JSON, unparsable JSON) each degrade to a `TestSuiteResult` with
`total = 1` and a single synthetic failing test whose message explains
the failure, returned as a value (the embedded boundary is a total
function, no exception propagates); the V2 parser instead degrades to
the empty suite with `total = 0`. -/
theorem c4_failure_semantics (raw : RawSandboxResult) (tl : ℚ) :
    (raw.timeout = true →
      run_tests raw tl =
        { total := 1, passed := 0, failed := 1, errors := 0
          results := [{ test_name := "execution", passed := false
                        message := "Timeout after " ++ ratStr tl ++ "s"
                        execution_time := 0 }]
          pass_rate := 0 })
  ∧ (raw.timeout = false → raw.sandbox_violation = false →
      raw.json_result = none →
      run_tests raw tl =
        { total := 1, passed := 0, failed := 0, errors := 1
          results := [{ test_name := "execution", passed := false
                        message := "Failed to parse results. stderr: "
                          ++ (if raw.stderr = "" then "Unknown error"
                              else raw.stderr.take 500)
                        execution_time := 0 }]
          pass_rate := 0 })
  ∧ (raw.json_result = none → parse_sandbox_output raw = {}) := by
  refine ⟨?_, ?_, ?_⟩
  · intro h
    simp only [run_tests, h, if_pos, TestSuiteResult.compute_pass_rate]
    norm_num [pyRound_zero]
  · intro h1 h2 h3
    simp only [run_tests, h1, h2, h3, TestSuiteResult.compute_pass_rate]
    norm_num [pyRound_zero]
  · intro h
    simp [parse_sandbox_output, h]

/-- C4 witness: a timed-out run through the IITB boundary, with the
three-second limit rendered into the synthetic test message. -/
theorem c4_failure_semantics_witness :
    run_tests { timeout := true } 3 =
      { total := 1, passed := 0, failed := 1, errors := 0
        results := [{ test_name := "execution", passed := false
                      message := "Timeout after " ++ ratStr 3 ++ "s"
                      execution_time := 0 }]
        pass_rate := 0 } :=
  (c4_failure_semantics { timeout := true } 3).1 rfl

end ClaimC4

section ClaimC8

/-- The correctness score lies in [0, 10] for pass rates in [0, 1]. -/
theorem compute_correctness_mem (t : TestSuiteResult)
    (h0 : 0 ≤ t.pass_rate) (h1 : t.pass_rate ≤ 1) :
    0 ≤ compute_correctness t ∧ compute_correctness t ≤ 10 := by
  unfold compute_correctness
  constructor
  · exact pyRound_nonneg _ (by nlinarith)
  · exact pyRound_le_ten _ (by nlinarith)

/-- The edge-case score lies in [0, 10] for nonnegative pass rates. -/
theorem compute_edge_cases_mem (t : TestSuiteResult)
    (h0 : 0 ≤ t.pass_rate) :
    0 ≤ compute_edge_cases t ∧ compute_edge_cases t ≤ 10 := by
  unfold compute_edge_cases
  split_ifs with a b c d <;> constructor <;> linarith

/-- The complexity score lies in [0, 10] for every source and label. -/
theorem compute_complexity_mem (src : SourceModel) (expected : String) :
    0 ≤ compute_complexity src expected
      ∧ compute_complexity src expected ≤ 10 := by
  simp only [compute_complexity]
  split_ifs with h
  · norm_num
  all_goals refine ⟨pyRound_nonneg _ ?_, pyRound_le_ten _ ?_⟩
  all_goals norm_num [min_def]

/-- The V2 style score lies in [0, 10] for every input. -/
theorem compute_style_mem (src : SourceModel) (warnings : List StaticWarning) :
    0 ≤ compute_style src warnings ∧ compute_style src warnings ≤ 10 := by
  unfold compute_style
  exact pyRound_clamp_mem 2 _

/-- The IITB style score lies in [0, 10] for every input. -/
theorem compute_style_iitb_mem (src : SourceModel)
    (warnings : List StaticWarning) :
    0 ≤ compute_style_iitb src warnings
      ∧ compute_style_iitb src warnings ≤ 10 := by
  unfold compute_style_iitb
  exact pyRound_clamp_mem 2 _

/-- The clarity score lies in [0, 10] for every input. -/
theorem compute_clarity_mem (src : SourceModel) :
    0 ≤ compute_clarity src ∧ compute_clarity src ≤ 10 := by
  unfold compute_clarity
  exact pyRound_clamp_mem 2 _

/-- C8 counterexample: the claim quantifies over every input, but the
deterministic engine trusts the `pass_rate` field — feeding it a suite
whose recorded pass_rate is 2 (passed = 2 of total = 1) produces a
correctness score of 20, outside [0, 10]. -/
theorem c8_out_of_range_cex :
    (compute_deterministic_scores {} ⟨1, 2, 0, 0, [], 2⟩ [] "O(n)").correctness = 20
  ∧ ¬ ((compute_deterministic_scores {} ⟨1, 2, 0, 0, [], 2⟩ [] "O(n)").correctness ≤ 10) := by
  have h : (compute_deterministic_scores {} ⟨1, 2, 0, 0, [], 2⟩ [] "O(n)").correctness = 20 := by
    show pyRound 2 ((2 : ℚ) * 10) = 20
    have hfl : ⌊(2 : ℚ) * 10 * (10 : ℚ) ^ 2⌋ = 2000 := by norm_num
    simp only [pyRound, hfl]
    norm_num
  exact ⟨h, by rw [h]; norm_num⟩

/-- C8 amended: whenever the recorded pass_rate lies in [0, 1] — which
the test-running boundaries guarantee for worker data with
`0 ≤ passed ≤ total` — all five dimensions returned by both deterministic
engines lie in [0, 10]. -/
theorem c8_rubric_range (src : SourceModel) (t : TestSuiteResult)
    (warnings : List StaticWarning) (expected : String)
    (h0 : 0 ≤ t.pass_rate) (h1 : t.pass_rate ≤ 1) :
    (∀ d : Dim, 0 ≤ (compute_deterministic_scores src t warnings expected).dim d
      ∧ (compute_deterministic_scores src t warnings expected).dim d ≤ 10)
  ∧ (∀ d : Dim,
      0 ≤ (compute_deterministic_scores_iitb src t warnings expected).dim d
      ∧ (compute_deterministic_scores_iitb src t warnings expected).dim d ≤ 10) := by
  constructor <;> intro d <;> cases d
  · exact compute_correctness_mem t h0 h1
  · exact compute_edge_cases_mem t h0
  · exact compute_complexity_mem src expected
  · exact compute_style_mem src warnings
  · exact compute_clarity_mem src
  · exact compute_correctness_mem t h0 h1
  · exact compute_edge_cases_mem t h0
  · exact compute_complexity_mem src expected
  · exact compute_style_iitb_mem src warnings
  · exact compute_clarity_mem src

/-- C8 witness: a two-test suite with one pass keeps every dimension in
range. -/
theorem c8_rubric_range_witness :
    0 ≤ (compute_deterministic_scores {} ⟨2, 1, 1, 0, [], 1/2⟩ [] "O(n)").dim Dim.correctness
  ∧ (compute_deterministic_scores {} ⟨2, 1, 1, 0, [], 1/2⟩ [] "O(n)").dim Dim.correctness ≤ 10 :=
  (c8_rubric_range {} ⟨2, 1, 1, 0, [], 1/2⟩ [] "O(n)" (by norm_num) (by norm_num)).1
    Dim.correctness

end ClaimC8

section ClaimC5

/-- Rule 3 of the V2 auditor only ever produces medium-severity flags. -/
theorem edge_case_flags_filter_high (cs : RubricScores) (tr : TestSuiteResult) :
    (edge_case_flags cs tr).filter (fun f => f.severity == Severity.high) = [] := by
  unfold edge_case_flags
  split_ifs <;> rfl

/-- Rule 4 of the V2 auditor only ever produces medium-severity flags. -/
theorem style_warning_flags_filter_high (cs : RubricScores) (n : ℕ) :
    (style_warning_flags cs n).filter (fun f => f.severity == Severity.high) = [] := by
  unfold style_warning_flags
  split_ifs <;> rfl

/-- Rule 6 of the V2 auditor only ever produces medium-severity flags. -/
theorem deviation_flags_filter_high (det cs : RubricScores) :
    (deviation_flags det cs).filter (fun f => f.severity == Severity.high) = [] := by
  rw [List.filter_eq_nil_iff]
  intro f hf
  unfold deviation_flags at hf
  rw [List.mem_filterMap] at hf
  obtain ⟨d, -, hd⟩ := hf
  split_ifs at hd
  cases hd
  simp

/-- C5: over the V2 auditor — for consensus correctness 9 against an
artifact with pass rate 0.2 (no timeout, no sandbox violation, as in the
test scenario of the spec) the audit carries exactly one high-severity
flag, for the correctness dimension, whatever the other dimensions and
the deterministic scores are; and for a consensus equal to the
deterministic scores with correctness 5 against pass rate 0.5, few
warnings, no timeout and no violation, the audit is empty. -/
theorem c5_audit_scenarios :
    (∀ (det : RubricScores) (consensus : ConsensusResult)
        (artifact : ExecutionArtifact),
      consensus.scores.correctness = 9 →
      artifact.test_results.pass_rate = 1/5 →
      artifact.timeout = false →
      artifact.sandbox_violation = false →
      (audit det consensus artifact).filter
          (fun f => f.severity == Severity.high)
        = [{ dimension := Dim.correctness, severity := Severity.high }])
  ∧ audit ⟨5, 4, 9, 8, 8⟩
      { scores := ⟨5, 4, 9, 8, 8⟩, confidence := 9/10 }
      { test_results := ⟨2, 1, 1, 0, [], 1/2⟩
        static_warnings := [{ rule := "E501" }, { rule := "W291" }] } = [] := by
  constructor
  · intro det consensus artifact hc hp hto hsv
    have e1 : high_correctness_flags consensus.scores artifact.test_results
        = [{ dimension := Dim.correctness, severity := Severity.high }] := by
      norm_num [high_correctness_flags, hc, hp]
    have e2 : low_correctness_flags consensus.scores artifact.test_results
        = [] := by
      norm_num [low_correctness_flags, hc]
    have e5 : timeout_flags consensus.scores artifact = [] := by
      simp [timeout_flags, hto]
    have e6 : sandbox_flags consensus.scores artifact = [] := by
      simp [sandbox_flags, hsv]
    simp only [audit, List.filter_append, e1, e2, e5, e6,
      edge_case_flags_filter_high, style_warning_flags_filter_high,
      deviation_flags_filter_high, List.filter_nil]
    simp [List.filter]
  · norm_num [audit, high_correctness_flags, low_correctness_flags,
      edge_case_flags, style_warning_flags, timeout_flags, sandbox_flags,
      deviation_flags, DIMENSIONS, RubricScores.dim]

/-- C5 witness: a concrete instance of the first scenario. -/
theorem c5_audit_scenarios_witness :
    (audit ⟨2, 1, 5, 5, 5⟩ { scores := ⟨9, 4, 5, 5, 5⟩ }
        { test_results := ⟨5, 1, 4, 0, [], 1/5⟩ }).filter
        (fun f => f.severity == Severity.high)
      = [{ dimension := Dim.correctness, severity := Severity.high }] :=
  c5_audit_scenarios.1 ⟨2, 1, 5, 5, 5⟩ { scores := ⟨9, 4, 5, 5, 5⟩ }
    { test_results := ⟨5, 1, 4, 0, [], 1/5⟩ } rfl rfl rfl rfl

end ClaimC5

section ClaimC6

/-- C6 counterexample: the IITB auditor (consistency_checker.py) fires
its timeout flag at judged correctness 3, which is at or below 3 — its
guard is `correctness > 2.0`, not the `> 3` of the claim (and of the V2
auditor). -/
theorem c6_iitb_threshold_cex :
    ((3 : ℚ) ≤ 3)
  ∧ audit_hallucinations { timeout := true }
      { scores := { correctness := 3, style := 5 } }
      = ["HALLUCINATION: LLM gives correctness score despite code timeout"] := by
  constructor
  · norm_num
  · norm_num [audit_hallucinations, iitb_high_correctness_flags,
      iitb_low_correctness_flags, iitb_edge_case_flags,
      iitb_good_style_flags, iitb_poor_style_flags, iitb_confidence_flags,
      iitb_timeout_flags, iitb_sandbox_flags, iitb_no_issue_flags,
      iitbWarningCount]

/-- C6 amended: the V2 auditor emits a high-severity correctness flag
when the execution timed out and judged correctness exceeds 3, and when a
sandbox violation occurred and judged correctness exceeds 0, and its
timeout and sandbox rules stay silent at correctness at most 3 and equal
to 0 respectively; the IITB auditor fires the corresponding flags at
correctness above 2 (timeout) and above 0 (violation), its flags carrying
no severity tag. -/
theorem c6_timeout_sandbox_rules :
    (∀ (det : RubricScores) (consensus : ConsensusResult)
        (artifact : ExecutionArtifact),
      artifact.timeout = true → 3 < consensus.scores.correctness →
      ({ dimension := Dim.correctness, severity := Severity.high } : HallucinationFlag)
        ∈ audit det consensus artifact)
  ∧ (∀ (det : RubricScores) (consensus : ConsensusResult)
        (artifact : ExecutionArtifact),
      artifact.sandbox_violation = true → 0 < consensus.scores.correctness →
      ({ dimension := Dim.correctness, severity := Severity.high } : HallucinationFlag)
        ∈ audit det consensus artifact)
  ∧ (∀ (cs : RubricScores) (artifact : ExecutionArtifact),
      cs.correctness ≤ 3 → timeout_flags cs artifact = [])
  ∧ (∀ (cs : RubricScores) (artifact : ExecutionArtifact),
      cs.correctness = 0 → sandbox_flags cs artifact = [])
  ∧ (∀ (artifact : ExecutionArtifact) (judgment : LLMJudgment),
      artifact.timeout = true → 2 < judgment.scores.correctness →
      "HALLUCINATION: LLM gives correctness score despite code timeout"
        ∈ audit_hallucinations artifact judgment)
  ∧ (∀ (artifact : ExecutionArtifact) (judgment : LLMJudgment),
      judgment.scores.correctness ≤ 2 →
      iitb_timeout_flags artifact judgment = [])
  ∧ (∀ (artifact : ExecutionArtifact) (judgment : LLMJudgment),
      artifact.sandbox_violation = true → 0 < judgment.scores.correctness →
      "HALLUCINATION: LLM gives correctness score despite sandbox violation"
        ∈ audit_hallucinations artifact judgment)
  ∧ (∀ (artifact : ExecutionArtifact) (judgment : LLMJudgment),
      judgment.scores.correctness = 0 →
      iitb_sandbox_flags artifact judgment = []) := by
  refine ⟨?_, ?_, ?_, ?_, ?_, ?_, ?_, ?_⟩
  · intro det consensus artifact h1 h2
    simp [audit, timeout_flags, h1, h2, List.mem_append]
  · intro det consensus artifact h1 h2
    simp [audit, sandbox_flags, h1, h2, List.mem_append]
  · intro cs artifact h
    unfold timeout_flags
    rw [if_neg]
    rintro ⟨-, hgt⟩
    linarith
  · intro cs artifact h
    unfold sandbox_flags
    rw [if_neg]
    rintro ⟨-, hgt⟩
    rw [h] at hgt
    exact lt_irrefl 0 hgt
  · intro artifact judgment h1 h2
    simp [audit_hallucinations, iitb_timeout_flags, h1, h2, List.mem_append]
  · intro artifact judgment h
    unfold iitb_timeout_flags
    rw [if_neg]
    rintro ⟨-, hgt⟩
    linarith
  · intro artifact judgment h1 h2
    simp [audit_hallucinations, iitb_sandbox_flags, h1, h2, List.mem_append]
  · intro artifact judgment h
    unfold iitb_sandbox_flags
    rw [if_neg]
    rintro ⟨-, hgt⟩
    rw [h] at hgt
    exact lt_irrefl 0 hgt

/-- C6 witness: the V2 timeout rule fires at judged correctness 10 on a
timed-out artifact. -/
theorem c6_timeout_sandbox_rules_witness :
    ({ dimension := Dim.correctness, severity := Severity.high } : HallucinationFlag)
      ∈ audit ⟨0, 0, 0, 0, 0⟩ { scores := { correctness := 10 } }
        { timeout := true } :=
  c6_timeout_sandbox_rules.1 ⟨0, 0, 0, 0, 0⟩ { scores := { correctness := 10 } }
    { timeout := true } rfl (by norm_num)

end ClaimC6

section ClaimC3

/-- C3 counterexample: the consensus value of a dimension is the
confidence-weighted average rounded to two decimal places, not the exact
average the claim asserts — two non-fallback judges with confidences 0.3
and 0.6 scoring 10 and 0 give consensus correctness 3.33, while the exact
weighted average is 10/3. -/
theorem c3_consensus_rounding_cex :
    (run_deterministic_consensus ⟨0, 0, 0, 0, 0⟩
        [⟨"judge_a", ⟨10, 10, 10, 10, 10⟩, "", [], [], 3/10, "", false⟩,
         ⟨"judge_b", ⟨0, 0, 0, 0, 0⟩, "", [], [], 3/5, "", false⟩]).scores.correctness
      = 333/100
  ∧ (333/100 : ℚ)
      ≠ (10 * (3/10) + 0 * (3/5)) / (3/10 + 3/5) := by
  have hcond : ¬ (([⟨"judge_a", ⟨10, 10, 10, 10, 10⟩, "", [], [], 3/10, "", false⟩,
      ⟨"judge_b", ⟨0, 0, 0, 0, 0⟩, "", [], [], 3/5, "", false⟩] :
        List AgentJudgment).all (fun j => j.fallback) = true
      ∨ ([⟨"judge_a", ⟨10, 10, 10, 10, 10⟩, "", [], [], 3/10, "", false⟩,
          ⟨"judge_b", ⟨0, 0, 0, 0, 0⟩, "", [], [], 3/5, "", false⟩] :
            List AgentJudgment) = []) := by
    simp [List.all_cons]
  constructor
  · show mergedDim ⟨0, 0, 0, 0, 0⟩ _ Dim.correctness = 333/100
    rw [mergedDim, if_pos]
    · have hws : weightedSum
          [⟨"judge_a", ⟨10, 10, 10, 10, 10⟩, "", [], [], 3/10, "", false⟩,
           ⟨"judge_b", ⟨0, 0, 0, 0, 0⟩, "", [], [], 3/5, "", false⟩]
          Dim.correctness = 3 := by
        norm_num [weightedSum, judgeWeight, RubricScores.dim]
      have htw : totalWeight
          [⟨"judge_a", ⟨10, 10, 10, 10, 10⟩, "", [], [], 3/10, "", false⟩,
           ⟨"judge_b", ⟨0, 0, 0, 0, 0⟩, "", [], [], 3/5, "", false⟩] = 9/10 := by
        norm_num [totalWeight, judgeWeight]
      rw [hws, htw]
      have hdiv : (3 : ℚ) / (9/10) = 10/3 := by norm_num
      rw [hdiv]
      have hfl : ⌊(10 : ℚ)/3 * (10 : ℚ) ^ 2⌋ = 333 := by norm_num
      simp only [pyRound, hfl]
      norm_num
    · norm_num [totalWeight, judgeWeight]
  · norm_num

/-- C3 amended: whenever at least one judgment is not a fallback, the
consensus value of every dimension is the confidence-weighted average —
non-fallback weight its confidence, fallback weight forced to 0.1 —
rounded to two decimal places when the total weight is positive, and the
deterministic value otherwise; no division by zero can occur. -/
theorem c3_consensus_weighted_average (det : RubricScores)
    (js : List AgentJudgment) (hnf : ∃ j ∈ js, j.fallback = false) :
    ∀ d : Dim, (run_deterministic_consensus det js).scores.dim d =
      if 0 < totalWeight js then pyRound 2 (weightedSum js d / totalWeight js)
      else det.dim d := by
  obtain ⟨j, hj, hf⟩ := hnf
  have hall : js.all (fun j => j.fallback) = false := by
    rw [List.all_eq_false]
    exact ⟨j, hj, by simp [hf]⟩
  have hne : js ≠ [] := by
    rintro rfl
    cases hj
  have hcond : ¬ (js.all (fun j => j.fallback) = true ∨ js = []) := by
    rw [hall]
    simp [hne]
  intro d
  rw [run_deterministic_consensus, if_neg hcond]
  cases d <;> rfl

/-- C3 witness: the two-judge instance of the claim — confidences 1.0 and
0.0 scoring 10 and 0 give consensus 10 with a positive total weight. -/
theorem c3_consensus_weighted_average_witness :
    (run_deterministic_consensus ⟨1, 2, 3, 4, 5⟩
        [⟨"judge_a", ⟨10, 10, 10, 10, 10⟩, "", [], [], 1, "", false⟩,
         ⟨"judge_b", ⟨0, 0, 0, 0, 0⟩, "", [], [], 0, "", false⟩]).scores.correctness
      = 10 := by
  have h := c3_consensus_weighted_average ⟨1, 2, 3, 4, 5⟩
    [⟨"judge_a", ⟨10, 10, 10, 10, 10⟩, "", [], [], 1, "", false⟩,
     ⟨"judge_b", ⟨0, 0, 0, 0, 0⟩, "", [], [], 0, "", false⟩]
    ⟨⟨"judge_a", ⟨10, 10, 10, 10, 10⟩, "", [], [], 1, "", false⟩,
      List.mem_cons_self _ _, rfl⟩ Dim.correctness
  rw [show (run_deterministic_consensus ⟨1, 2, 3, 4, 5⟩
      [⟨"judge_a", ⟨10, 10, 10, 10, 10⟩, "", [], [], 1, "", false⟩,
       ⟨"judge_b", ⟨0, 0, 0, 0, 0⟩, "", [], [], 0, "", false⟩]).scores.correctness
    = (run_deterministic_consensus ⟨1, 2, 3, 4, 5⟩
      [⟨"judge_a", ⟨10, 10, 10, 10, 10⟩, "", [], [], 1, "", false⟩,
       ⟨"judge_b", ⟨0, 0, 0, 0, 0⟩, "", [], [], 0, "", false⟩]).scores.dim Dim.correctness
    from rfl, h, if_pos (by norm_num [totalWeight, judgeWeight])]
  have hws : weightedSum
      [⟨"judge_a", ⟨10, 10, 10, 10, 10⟩, "", [], [], 1, "", false⟩,
       ⟨"judge_b", ⟨0, 0, 0, 0, 0⟩, "", [], [], 0, "", false⟩]
      Dim.correctness = 10 := by
    norm_num [weightedSum, judgeWeight, RubricScores.dim]
  have htw : totalWeight
      [⟨"judge_a", ⟨10, 10, 10, 10, 10⟩, "", [], [], 1, "", false⟩,
       ⟨"judge_b", ⟨0, 0, 0, 0, 0⟩, "", [], [], 0, "", false⟩] = 1 := by
    norm_num [totalWeight, judgeWeight]
  rw [hws, htw]
  have hfl : ⌊(10 : ℚ) / 1 * (10 : ℚ) ^ 2⌋ = 1000 := by norm_num
  simp only [pyRound, hfl]
  norm_num

end ClaimC3

section ClaimC10

/-- C10: an empty judgment list makes the consensus equal the
deterministic scores with confidence 1.0 and no disagreements; a
non-empty all-fallback list gives the deterministic scores with
confidence 0.3. -/
theorem c10_consensus_fallback (det : RubricScores)
    (js : List AgentJudgment) :
    ((run_deterministic_consensus det []).scores = det
      ∧ (run_deterministic_consensus det []).confidence = 1
      ∧ (run_deterministic_consensus det []).disagreements = [])
  ∧ (js ≠ [] → js.all (fun j => j.fallback) = true →
      (run_deterministic_consensus det js).scores = det
        ∧ (run_deterministic_consensus det js).confidence = 3/10
        ∧ (run_deterministic_consensus det js).disagreements = []) := by
  constructor
  · rw [run_deterministic_consensus, if_pos (Or.inr rfl)]
    exact ⟨rfl, rfl, rfl⟩
  · intro h1 h2
    rw [run_deterministic_consensus, if_pos (Or.inl h2)]
    refine ⟨rfl, ?_, rfl⟩
    simp [h1]

/-- C10 witness: a single fallback judgment yields confidence 0.3. -/
theorem c10_consensus_fallback_witness :
    (run_deterministic_consensus ⟨1, 2, 3, 4, 5⟩
        [⟨"judge_a", ⟨0, 0, 0, 0, 0⟩, "", [], [], 3/10, "", true⟩]).confidence
      = 3/10 :=
  ((c10_consensus_fallback ⟨1, 2, 3, 4, 5⟩
      [⟨"judge_a", ⟨0, 0, 0, 0, 0⟩, "", [], [], 3/10, "", true⟩]).2
    (by simp) (by simp)).2.1

end ClaimC10

section ClaimC9

/-- A successful IITB clamp lands in [0, 10]. -/
theorem clamp_judge_mem (v : PyVal) (r : ℚ)
    (h : clamp_judge v 0 10 = some r) : 0 ≤ r ∧ r ≤ 10 := by
  unfold clamp_judge at h
  cases hv : pyFloat v with
  | none => rw [hv] at h; cases h
  | some x =>
      rw [hv] at h
      simp only [Option.map_some', Option.some.injEq] at h
      rw [← h]
      exact pyRound_clamp_mem 2 x

/-- C9 counterexample: the IITB `_clamp` has no exception handler — on a
score value that `float` cannot convert it raises (modelled by `none`)
instead of yielding 5.0, and the raise escapes `_build_judgment`; the V2
agent `_clamp` on the same value yields 5.0. -/
theorem c9_judge_clamp_raises_cex :
    clamp_judge (PyVal.badStr "excellent") 0 10 = none
  ∧ clamp_agent (PyVal.badStr "excellent") 0 10 = 5
  ∧ build_judgment ⟨PyVal.badStr "excellent", PyVal.num 5, PyVal.num 5,
      PyVal.num 5, PyVal.num 5⟩ = none := by
  refine ⟨rfl, rfl, rfl⟩

/-- C9 amended: every score of a parsed judge response is numerically
clamped to [0, 10] before use in both implementations (the IITB clamp
additionally rounds to two decimal places); a malformed (unconvertible)
value yields 5.0 in the V2 agents, while in the IITB judge the conversion
raises out of `_build_judgment` (the retry loop then discards the
attempt), so no 5.0 substitution happens there. -/
theorem c9_score_clamping (p : ParsedScores) (v : PyVal) (q : ℚ) :
    (∀ d : Dim, 0 ≤ (build_scores_agent p).dim d
      ∧ (build_scores_agent p).dim d ≤ 10)
  ∧ (pyFloat v = some q →
      clamp_agent v 0 10 = max 0 (min 10 q)
        ∧ clamp_judge v 0 10 = some (pyRound 2 (max 0 (min 10 q))))
  ∧ (pyFloat v = none →
      clamp_agent v 0 10 = 5 ∧ clamp_judge v 0 10 = none)
  ∧ (∀ r : RubricScores, build_judgment p = some r →
      ∀ d : Dim, 0 ≤ r.dim d ∧ r.dim d ≤ 10)
  ∧ (pyFloat p.correctness = none → build_judgment p = none) := by
  have hagent : ∀ w : PyVal, 0 ≤ clamp_agent w 0 10 ∧ clamp_agent w 0 10 ≤ 10 := by
    intro w
    unfold clamp_agent
    cases pyFloat w with
    | none => norm_num
    | some x =>
        exact ⟨le_max_left 0 (min 10 x),
          max_le (by norm_num) (min_le_left 10 x)⟩
  refine ⟨?_, ?_, ?_, ?_, ?_⟩
  · intro d
    cases d <;> exact hagent _
  · intro h
    unfold clamp_agent clamp_judge
    rw [h]
    exact ⟨rfl, rfl⟩
  · intro h
    unfold clamp_agent clamp_judge
    rw [h]
    exact ⟨rfl, rfl⟩
  · intro r hr d
    unfold build_judgment at hr
    simp only [Option.bind_eq_bind, Option.bind_eq_some, Option.pure_def,
      Option.some.injEq] at hr
    obtain ⟨c, hc, e, he, x, hx, st, hst, cl, hcl, hrr⟩ := hr
    rw [← hrr]
    cases d
    · exact clamp_judge_mem _ _ hc
    · exact clamp_judge_mem _ _ he
    · exact clamp_judge_mem _ _ hx
    · exact clamp_judge_mem _ _ hst
    · exact clamp_judge_mem _ _ hcl
  · intro h
    unfold build_judgment clamp_judge
    rw [h]
    rfl

/-- C9 witness: a numeric score of 15 is clamped to the top of the range
by the V2 agent clamp. -/
theorem c9_score_clamping_witness :
    clamp_agent (PyVal.num 15) 0 10 = max 0 (min 10 15)
      ∧ clamp_judge (PyVal.num 15) 0 10 = some (pyRound 2 (max 0 (min 10 15))) :=
  (c9_score_clamping ⟨PyVal.num 15, PyVal.num 15, PyVal.num 15, PyVal.num 15,
    PyVal.num 15⟩ (PyVal.num 15) 15).2.1 rfl

end ClaimC9

section ClaimC1

/-- C1 counterexample: with the deterministic overall 0, a consensus
overall of 0.0001 (well inside the blend conditions: confidence 1, one
non-fallback judge, judges available), the blended final score is rounded
to four decimal places, so both the flagged and the unflagged run report
exactly 0 — the flagged final score is not strictly closer to the
deterministic score than the unflagged one, and the unflagged final score
differs from the exact (unrounded) blend formula of the claim. -/
theorem c1_blend_rounding_cex :
    ((⟨⟨1/10000, 1/10000, 1/10000, 1/10000, 1/10000⟩, [], [], 1, "", ""⟩ : ConsensusResult)).scores.overall defaultWeights = 1/10000
  ∧ final_score_v2 true ["model"] 0 ⟨⟨1/10000, 1/10000, 1/10000, 1/10000, 1/10000⟩, [], [], 1, "", ""⟩ [⟨"test_designer", ⟨0, 0, 0, 0, 0⟩, "", [], [], 1, "", false⟩] [⟨Dim.correctness, Severity.high⟩] (2/5) (1/2) = 0
  ∧ final_score_v2 true ["model"] 0 ⟨⟨1/10000, 1/10000, 1/10000, 1/10000, 1/10000⟩, [], [], 1, "", ""⟩ [⟨"test_designer", ⟨0, 0, 0, 0, 0⟩, "", [], [], 1, "", false⟩] [] (2/5) (1/2) = 0
  ∧ (0 : ℚ) ≠ 0 * (1 - 2/5) + (1/10000) * (2/5)
  ∧ ¬ (|(0 : ℚ) - 0| < |(0 : ℚ) - 0|) := by
  have hov : ((⟨⟨1/10000, 1/10000, 1/10000, 1/10000, 1/10000⟩, [], [], 1, "", ""⟩ : ConsensusResult)).scores.overall defaultWeights = 1/10000 := by
    norm_num [RubricScores.overall, defaultWeights]
  have hcond1 : ¬ ((true : Bool) = false ∨ (["model"] : List String) = []) := by
    simp
  have hcond2 : (4 : ℚ)/10 ≤ ((⟨⟨1/10000, 1/10000, 1/10000, 1/10000, 1/10000⟩, [], [], 1, "", ""⟩ : ConsensusResult)).confidence ∧ ¬ (([⟨"test_designer", ⟨0, 0, 0, 0, 0⟩, "", [], [], 1, "", false⟩] : List AgentJudgment).all (fun j => j.fallback) = true) := by
    constructor
    · norm_num
    · simp
  refine ⟨hov, ?_, ?_, by norm_num, by norm_num⟩
  · simp only [final_score_v2]
    rw [if_neg hcond1, if_pos hcond2, hov,
      if_neg (by simp : ¬ ([⟨Dim.correctness, Severity.high⟩] : List HallucinationFlag) = [])]
    have hfl : ⌊(0 * (1 - 2/5 * (1/2)) + 1/10000 * (2/5 * (1/2)) : ℚ) * (10 : ℚ) ^ 4⌋ = 0 := by
      norm_num
    simp only [pyRound, hfl]
    norm_num
  · simp only [final_score_v2]
    rw [if_neg hcond1, if_pos hcond2, hov]
    simp only [if_true]
    have hfl : ⌊(0 * (1 - 2/5) + 1/10000 * (2/5) : ℚ) * (10 : ℚ) ^ 4⌋ = 0 := by
      norm_num
    simp only [pyRound, hfl]
    norm_num

/-- C1 amended: the V2 final score equals the deterministic overall when
the LLM layer is disabled, no models are configured, the consensus
confidence is below 0.4, or every agent fell back; otherwise it equals
the blend `det * (1 - w) + consensus_overall * w` rounded to four decimal
places, with `w = 0.4` halved to `0.4 * 0.5` whenever at least one
hallucination flag fired; for an unchanged consensus overall different
from the deterministic overall, the flagged blend before that final
rounding is strictly closer to the deterministic overall than the
unflagged blend. In the IITB orchestrator any hallucination flag suppresses
blending entirely, so the flagged final score is the deterministic
overall itself. -/
theorem c1_blend_behavior (llmEnabled : Bool) (models : List String)
    (det_overall : ℚ) (consensus : ConsensusResult)
    (judgments : List AgentJudgment) (h_flags : List HallucinationFlag)
    (det_iitb llm_iitb conf_iitb : ℚ) (flags_iitb : List String) :
    (llmEnabled = false ∨ models = [] →
      final_score_v2 llmEnabled models det_overall consensus judgments
        h_flags (2/5) (1/2) = det_overall)
  ∧ (¬ (llmEnabled = false ∨ models = []) →
      ¬ (4/10 ≤ consensus.confidence
          ∧ ¬ (judgments.all (fun j => j.fallback) = true)) →
      final_score_v2 llmEnabled models det_overall consensus judgments
        h_flags (2/5) (1/2) = det_overall)
  ∧ (¬ (llmEnabled = false ∨ models = []) →
      4/10 ≤ consensus.confidence →
      ¬ (judgments.all (fun j => j.fallback) = true) →
      h_flags = [] →
      final_score_v2 llmEnabled models det_overall consensus judgments
          h_flags (2/5) (1/2) =
        pyRound 4 (det_overall * (1 - 2/5)
          + consensus.scores.overall defaultWeights * (2/5)))
  ∧ (¬ (llmEnabled = false ∨ models = []) →
      4/10 ≤ consensus.confidence →
      ¬ (judgments.all (fun j => j.fallback) = true) →
      h_flags ≠ [] →
      final_score_v2 llmEnabled models det_overall consensus judgments
          h_flags (2/5) (1/2) =
        pyRound 4 (det_overall * (1 - 2/5 * (1/2))
          + consensus.scores.overall defaultWeights * (2/5 * (1/2))))
  ∧ (consensus.scores.overall defaultWeights ≠ det_overall →
      |det_overall * (1 - 2/5 * (1/2))
          + consensus.scores.overall defaultWeights * (2/5 * (1/2))
          - det_overall|
        < |det_overall * (1 - 2/5)
            + consensus.scores.overall defaultWeights * (2/5) - det_overall|)
  ∧ (flags_iitb ≠ [] →
      final_score_iitb det_iitb llm_iitb conf_iitb flags_iitb (2/5)
        = det_iitb) := by
  refine ⟨?_, ?_, ?_, ?_, ?_, ?_⟩
  · intro h
    simp only [final_score_v2]
    rw [if_pos h]
  · intro h1 h2
    simp only [final_score_v2]
    rw [if_neg h1, if_neg h2]
  · intro h1 h2 h3 hfe
    simp only [final_score_v2, hfe]
    rw [if_neg h1, if_pos ⟨h2, h3⟩]
    norm_num
  · intro h1 h2 h3 hfne
    simp only [final_score_v2]
    rw [if_neg h1, if_pos ⟨h2, h3⟩, if_neg hfne]
  · intro hne
    have e1 : det_overall * (1 - 2/5 * (1/2))
        + consensus.scores.overall defaultWeights * (2/5 * (1/2)) - det_overall
        = (1/5) * (consensus.scores.overall defaultWeights - det_overall) := by
      ring
    have e2 : det_overall * (1 - 2/5)
        + consensus.scores.overall defaultWeights * (2/5) - det_overall
        = (2/5) * (consensus.scores.overall defaultWeights - det_overall) := by
      ring
    rw [e1, e2, abs_mul, abs_mul,
      abs_of_pos (by norm_num : (0 : ℚ) < 1/5),
      abs_of_pos (by norm_num : (0 : ℚ) < 2/5)]
    have hC : 0 < |consensus.scores.overall defaultWeights - det_overall| :=
      abs_pos.mpr (sub_ne_zero.mpr hne)
    have hlt : (1/5 : ℚ) < 2/5 := by norm_num
    exact mul_lt_mul_of_pos_right hlt hC
  · intro h
    simp only [final_score_iitb]
    rw [if_neg]
    rintro ⟨-, hfl⟩
    exact h hfl

/-- C1 witness: a clean blend (no flags) at deterministic overall 6 and
consensus overall 8. -/
theorem c1_blend_behavior_witness :
    final_score_v2 true ["m"] 6 { scores := ⟨8, 8, 8, 8, 8⟩, confidence := 1/2 }
      [⟨"a", ⟨0, 0, 0, 0, 0⟩, "", [], [], 1, "", false⟩] [] (2/5) (1/2)
    = pyRound 4 (6 * (1 - 2/5)
        + ({ scores := ⟨8, 8, 8, 8, 8⟩, confidence := 1/2 } :
            ConsensusResult).scores.overall defaultWeights * (2/5)) :=
  (c1_blend_behavior true ["m"] 6
      { scores := ⟨8, 8, 8, 8, 8⟩, confidence := 1/2 }
      [⟨"a", ⟨0, 0, 0, 0, 0⟩, "", [], [], 1, "", false⟩] [] 0 0 0 []).2.2.1
    (by simp) (by norm_num) (by simp) rfl

end ClaimC1

end CodeEval
